import Mathlib

/-!
Verification of `funcache` (src/funcache.py) against its specification.

The embedding models the cache decorator's `wrapper` closure
(src/funcache.py lines 49-81) as a pure state-transition function.

Modelling decisions, each traceable to the source:

* The memory tier is the pair of dictionaries `args_hash_result_map` and
  `args_return_value_map` created per wrapped function (lines 47-48).
  Python dictionaries are modelled as functions `Sig → Option _`;
  assignment is pointwise update.
* `call_signature = (function.__module__, function.__name__, args,
  tuple(kwargs.items()))` (line 51) is the structure `CallSignature`;
  `tuple(kwargs.items())` lists the keyword items in the order they were
  supplied (Python dicts preserve insertion order), so the keyword
  component is a `List (K × V)` in supply order, not a sorted mapping.
* `retain_hash_fn` is typically impure (e.g. it hashes a file's current
  contents), so the wrapper takes it as a per-call parameter: giving two
  consecutive calls different functions models the external world
  changing between the calls.
* The wrapped function may raise; it is `f : … → Except E Val`.  The
  wrapper's result is `Except (PyErr E) Val` where `PyErr` adds the two
  interpreter-level errors the wrapper body itself can raise:
  - `keyError`: line 68 evaluates `args_hash_result_map[call_signature]`
    after only checking membership in `args_return_value_map`; if the
    signature were in the value map but not the hash map this raises
    `KeyError` (unreachable from the initial state, but the embedding
    keeps the case);
  - `typeError`: when `diskcache_dir` is truthy the wrapper calls
    `_is_in_disk_cache(call_signature, 'result')` (lines 56 and 77).
    `_is_in_disk_cache` (line 35-36) passes its two arguments on to
    `_get_cache_path`, which is defined with three required parameters
    `(diskcache_dir, call_signature, key)` (line 9), so the call raises
    `TypeError: missing 1 required positional argument` before touching
    the filesystem.  Likewise line 78-79 call `_save_to_disk_cache` with
    three of its four parameters.  (`_get_cache_path` also uses
    `json.dumps` with no `import json`, so even a repaired call chain
    would raise `NameError` at line 11.)  Consequently the disk branch of
    the embedding raises `typeError` at exactly the program points where
    CPython would: line 56 when the signature is absent from the memory
    tier, line 77 otherwise — in the latter case after the memory-tier
    bookkeeping of lines 68-75 has already happened.
* `copy.copy` (line 71) is shallow.  For claims that only compare values
  it is modelled by the value-preserving `pyShallowCopy`.  Claims about
  mutation use a second embedding of the same lines (`wrapperH`, below)
  over an explicit heap where `copy.copy` allocates a new top-level cell
  sharing the element references.
-/

namespace Funcache

/-- `call_signature = (function.__module__, function.__name__, args,
tuple(kwargs.items()))` from src/funcache.py line 51.  `kwargs` is the
keyword-item list in the order the keywords were supplied. -/
structure CallSignature (A K V : Type) where
  module : String
  fname : String
  args : List A
  kwargs : List (K × V)
deriving DecidableEq

/-- Builds the tuple of line 51 from the call's parts. -/
def buildSignature {A K V : Type} (module fname : String)
    (args : List A) (kwargs : List (K × V)) : CallSignature A K V :=
  ⟨module, fname, args, kwargs⟩

/-- The memory tier of one wrapped function: the dictionaries
`args_hash_result_map` and `args_return_value_map` of lines 47-48,
modelled as partial maps. -/
structure CacheState (Sig Token Val : Type) where
  hashMap : Sig → Option Token
  valueMap : Sig → Option Val

/-- Both dictionaries start empty (lines 47-48). -/
def emptyState {Sig Token Val : Type} : CacheState Sig Token Val :=
  ⟨fun _ => none, fun _ => none⟩

/-- Python dictionary assignment `m[k] = v`. -/
def mapUpd {Sig α : Type} [DecidableEq Sig]
    (m : Sig → Option α) (k : Sig) (v : α) : Sig → Option α :=
  fun s => if s = k then some v else m s

/-- Errors a call through the wrapper can raise, beyond those of the
wrapped function (`userErr`): see the module comment. -/
inductive PyErr (E : Type) where
  | typeError
  | keyError
  | userErr (e : E)
deriving DecidableEq

/-- Outcome of one call through the wrapper: the returned value or
raised error, the memory tier afterwards, and whether the wrapped
function was invoked during the call. -/
structure CallResult (Sig Token Val E : Type) where
  ret : Except (PyErr E) Val
  state : CacheState Sig Token Val
  invoked : Bool

/-- `copy.copy` (line 71) at the level of values: a shallow copy is a
distinct object but an equal value, so where only equality of results
matters it is the identity.  Object identity is treated by `pyCopy` in
the heap model below. -/
def pyShallowCopy {Val : Type} (v : Val) : Val := v

/-- Lines 66-75 of src/funcache.py: the memory-tier hit test and the
compute-and-store branch.

```
if call_signature in args_return_value_map and \
        hash_result == args_hash_result_map[call_signature]:
    res = args_return_value_map[call_signature]
    if return_copy:
        res = copy.copy(res)
else:
    res = function(*args, **kwargs)
    args_hash_result_map[call_signature] = hash_result
    args_return_value_map[call_signature] = res
```
-/
def memStep {Sig Token Val E : Type} [DecidableEq Sig] [DecidableEq Token]
    (returnCopy : Bool) (fres : Except E Val)
    (st : CacheState Sig Token Val) (tok : Token) (sig : Sig) :
    CallResult Sig Token Val E :=
  let compute : CallResult Sig Token Val E :=
    match fres with
    | .ok r =>
        ⟨.ok r, ⟨mapUpd st.hashMap sig tok, mapUpd st.valueMap sig r⟩, true⟩
    | .error e => ⟨.error (.userErr e), st, true⟩
  match st.valueMap sig, st.hashMap sig with
  | some v, some h =>
      if h = tok then
        ⟨.ok (if returnCopy then pyShallowCopy v else v), st, false⟩
      else compute
  | some _, none => ⟨.error .keyError, st, false⟩
  | none, _ => compute

/-- Python truthiness of the `diskcache_dir` argument (line 53 and 77
test `if diskcache_dir:`): `None` and the empty string are falsy. -/
def truthyDir : Option String → Bool
  | none => false
  | some s => decide (s ≠ "")

/-- The `wrapper` closure, src/funcache.py lines 49-81, for one call.

`retainHashFn` is `retain_hash_fn` evaluated at this call (line 50); `f`
is `function` applied at this call's arguments.  When `diskcache_dir` is
truthy, line 56 (signature absent from memory) or line 77 (otherwise)
raises `TypeError` through the mis-called `_is_in_disk_cache`; line 77
fires after lines 68-75 have updated the memory tier.  See the module
comment for the line-by-line justification. -/
def wrapper {A K V Token Val E : Type}
    [DecidableEq A] [DecidableEq K] [DecidableEq V] [DecidableEq Token]
    (retainHashFn : List A → List (K × V) → Token)
    (returnCopy : Bool) (diskcacheDir : Option String)
    (module fname : String)
    (f : List A → List (K × V) → Except E Val)
    (st : CacheState (CallSignature A K V) Token Val)
    (args : List A) (kwargs : List (K × V)) :
    CallResult (CallSignature A K V) Token Val E :=
  let tok := retainHashFn args kwargs
  let sig := buildSignature module fname args kwargs
  if truthyDir diskcacheDir then
    match st.valueMap sig with
    | none => ⟨.error .typeError, st, false⟩
    | some _ =>
        let r := memStep returnCopy (f args kwargs) st tok sig
        match r.ret with
        | .ok _ => ⟨.error .typeError, r.state, r.invoked⟩
        | .error e => ⟨.error e, r.state, r.invoked⟩
  else
    memStep returnCopy (f args kwargs) st tok sig

/-- Concrete freshness function for instantiated checks: the default
`retain_hash_fn = lambda *args, **kwargs: 0` of src/funcache.py line 39
at calls with `Nat` positional arguments and `Nat × Nat` keyword items. -/
def exRetain0 : List Nat → List (Nat × Nat) → Nat := fun _ _ => 0

/-- Concrete wrapped function for instantiated checks: always returns
`7` and never raises. -/
def exFun7 : List Nat → List (Nat × Nat) → Except Unit Nat :=
  fun _ _ => .ok 7

/-- Concrete freshness function for instantiated checks: returns `1`
for every call, differing from `exRetain0`. -/
def exRetain1 : List Nat → List (Nat × Nat) → Nat := fun _ _ => 1

/-- Concrete wrapped function for instantiated checks: always returns
`9` and never raises. -/
def exFun9 : List Nat → List (Nat × Nat) → Except Unit Nat :=
  fun _ _ => .ok 9

/-- Concrete wrapped function for instantiated checks: always raises. -/
def exFunErr : List Nat → List (Nat × Nat) → Except Unit Nat :=
  fun _ _ => .error ()

/-- The default `retain_hash_fn = (lambda *args, **kwargs: 0)` of
src/funcache.py line 39: the constant `0`, whatever the arguments. -/
def defaultRetainHashFn {A K V : Type} : List A → List (K × V) → Nat :=
  fun _ _ => 0

/-- Runs a sequence of calls through one wrapped function, threading the
memory tier from call to call (the dictionaries of lines 47-48 live for
the whole process), and lists the per-call outcomes in order. -/
def runCalls {A K V Token Val E : Type}
    [DecidableEq A] [DecidableEq K] [DecidableEq V] [DecidableEq Token]
    (retain : List A → List (K × V) → Token)
    (returnCopy : Bool) (diskcacheDir : Option String)
    (module fname : String)
    (f : List A → List (K × V) → Except E Val)
    (st : CacheState (CallSignature A K V) Token Val) :
    List (List A × List (K × V)) →
    List (CallResult (CallSignature A K V) Token Val E)
  | [] => []
  | c :: cs =>
      let r := wrapper retain returnCopy diskcacheDir module fname f st
        c.1 c.2
      r :: runCalls retain returnCopy diskcacheDir module fname f r.state cs

/-- Over a sequence of calls, how many times the wrapped function is
invoked by the calls whose signature is `s`. -/
def invocationCount {A K V Token Val E : Type}
    [DecidableEq A] [DecidableEq K] [DecidableEq V] [DecidableEq Token]
    (retain : List A → List (K × V) → Token)
    (returnCopy : Bool) (diskcacheDir : Option String)
    (module fname : String)
    (f : List A → List (K × V) → Except E Val)
    (st : CacheState (CallSignature A K V) Token Val)
    (calls : List (List A × List (K × V)))
    (s : CallSignature A K V) : Nat :=
  match calls with
  | [] => 0
  | c :: cs =>
      let r := wrapper retain returnCopy diskcacheDir module fname f st
        c.1 c.2
      (if buildSignature module fname c.1 c.2 = s ∧ r.invoked = true
        then 1 else 0) +
        invocationCount retain returnCopy diskcacheDir module fname f
          r.state cs s

/-- The two memory-tier dictionaries of lines 47-48 hold entries for
exactly the same signatures. -/
def domsAgree {Sig Token Val : Type} (st : CacheState Sig Token Val) :
    Prop :=
  ∀ s, (st.hashMap s).isSome = (st.valueMap s).isSome

/-!
Heap model for object identity, used by the copy-isolation claim.

Python results are mutable objects; `copy.copy` (line 71) copies only
the outermost object.  `PyVal` is either an immutable int or a reference
into a heap of mutable list objects; `pyCopy` is `copy.copy`: it
allocates one fresh cell holding the same element values (nested
references are shared).  `wrapperH` is the same source lines 49-75
(`diskcache_dir = None`, its default) with the heap threaded through, so
that storing, copying and mutating can be distinguished.
-/

/-- A Python value: an immutable integer, or a reference to a mutable
list object on the heap. -/
inductive PyVal where
  | int (n : Int)
  | ref (a : Nat)
deriving DecidableEq

/-- The heap: cell `a` is the contents of the list object at address
`a`. -/
abbrev Heap := List (List PyVal)

/-- Allocates a fresh list object; returns the new heap and the new
object's address. -/
def heapAlloc (h : Heap) (xs : List PyVal) : Heap × Nat :=
  (h ++ [xs], h.length)

/-- `copy.copy` (line 71): an int copies to itself; a list reference
copies to a freshly allocated cell with the same element values, the
elements themselves (including nested references) being shared. -/
def pyCopy (h : Heap) (v : PyVal) : Heap × PyVal :=
  match v with
  | .int n => (h, .int n)
  | .ref a => let p := heapAlloc h (h.getD a []); (p.1, .ref p.2)

/-- Caller-side mutation `obj[i] = w` on the list object at address
`a`. -/
def listSet (h : Heap) (a i : Nat) (w : PyVal) : Heap :=
  h.set a ((h.getD a []).set i w)

/-- The value observed by a caller who reads a result deeply (fuel
bounds the depth so the reading function is total). -/
inductive DeepVal where
  | int (n : Int)
  | list (xs : List DeepVal)
  | depthExceeded

/-- Deep read of a value: follow references and read out the current
heap contents, up to `fuel` levels of nesting. -/
def deepRead (h : Heap) (fuel : Nat) (v : PyVal) : DeepVal :=
  match fuel, v with
  | _, .int n => .int n
  | 0, .ref _ => .depthExceeded
  | fuel + 1, .ref a => .list ((h.getD a []).map (fun w => deepRead h fuel w))

/-- Memory tier plus heap, for the object-identity embedding. -/
structure HeapState (Sig Token : Type) where
  heap : Heap
  hashMap : Sig → Option Token
  valueMap : Sig → Option PyVal

/-- The `wrapper` closure, lines 49-75 and 81 of src/funcache.py, with
`diskcache_dir = None` (its default) and object identity made explicit:
the wrapped function may allocate on the heap; on a hit with
`return_copy` the returned value is `copy.copy` of the stored one
(line 71); on a miss the computed object itself is stored in the value
map *and* returned (lines 73-75 and 81 — no copy is taken on the
computing call).  `none` is the `KeyError` of line 68 (value map has the
signature, hash map does not). -/
def wrapperH {A K V Token : Type}
    [DecidableEq A] [DecidableEq K] [DecidableEq V] [DecidableEq Token]
    (retainHashFn : List A → List (K × V) → Token)
    (returnCopy : Bool) (module fname : String)
    (f : Heap → List A → List (K × V) → Heap × PyVal)
    (st : HeapState (CallSignature A K V) Token)
    (args : List A) (kwargs : List (K × V)) :
    Option (HeapState (CallSignature A K V) Token × PyVal × Bool) :=
  let tok := retainHashFn args kwargs
  let sig := buildSignature module fname args kwargs
  match st.valueMap sig, st.hashMap sig with
  | some v, some h =>
      if h = tok then
        if returnCopy then
          let p := pyCopy st.heap v
          some (⟨p.1, st.hashMap, st.valueMap⟩, p.2, false)
        else
          some (st, v, false)
      else
        let p := f st.heap args kwargs
        some (⟨p.1, mapUpd st.hashMap sig tok, mapUpd st.valueMap sig p.2⟩,
          p.2, true)
  | some _, none => none
  | none, _ =>
      let p := f st.heap args kwargs
      some (⟨p.1, mapUpd st.hashMap sig tok, mapUpd st.valueMap sig p.2⟩,
        p.2, true)

/-- Concrete heap-model wrapped function: allocates and returns a fresh
one-element list `[1]`, independent of its arguments. -/
def exAllocList1 : Heap → List Nat → List (Nat × Nat) → Heap × PyVal :=
  fun h _ _ => let p := heapAlloc h [.int 1]; (p.1, .ref p.2)

/-- Initial heap-model state: empty heap, both memory-tier dictionaries
empty. -/
def emptyHeapState {Sig Token : Type} : HeapState Sig Token :=
  ⟨[], fun _ => none, fun _ => none⟩

/-- Caller-side mutation `res[0] = 99` applied to a value the wrapper
returned: a no-op on an int, an in-place element write on a list. -/
def mutateAt0 (h : Heap) (v : PyVal) : Heap :=
  match v with
  | .int _ => h
  | .ref a => listSet h a 0 (.int 99)

/-- Copy-isolation scenario, step 1: a first (computing) call to a
wrapped function that builds the fresh list `[1]`, with copy-on-read
enabled. -/
def exHeapCall1 :
    Option (HeapState (CallSignature Nat Nat Nat) Nat × PyVal × Bool) :=
  wrapperH exRetain0 true "m" "g" exAllocList1 emptyHeapState
    ([] : List Nat) ([] : List (Nat × Nat))

/-- The state after the scenario's first call. -/
def exHeapSt1 : HeapState (CallSignature Nat Nat Nat) Nat :=
  (exHeapCall1.map (fun p => p.1)).getD emptyHeapState

/-- The value the scenario's first call returned to the caller. -/
def exHeapRet1 : PyVal :=
  (exHeapCall1.map (fun p => p.2.1)).getD (.int 0)

/-- Copy-isolation scenario, step 2: the caller mutates the object the
first call returned (`res[0] = 99`); the memory tier is untouched. -/
def exHeapMutated : HeapState (CallSignature Nat Nat Nat) Nat :=
  ⟨mutateAt0 exHeapSt1.heap exHeapRet1, exHeapSt1.hashMap,
    exHeapSt1.valueMap⟩

/-- Copy-isolation scenario, step 3: a second call with the same
arguments. -/
def exHeapCall2 :
    Option (HeapState (CallSignature Nat Nat Nat) Nat × PyVal × Bool) :=
  wrapperH exRetain0 true "m" "g" exAllocList1 exHeapMutated
    ([] : List Nat) ([] : List (Nat × Nat))

/-- With `diskcache_dir = None` the wrapper is exactly its memory-tier
step, lines 66-75 (the `if diskcache_dir:` guards of lines 53 and 77 are
skipped). -/
theorem wrapper_none_eq {A K V Token Val E : Type}
    [DecidableEq A] [DecidableEq K] [DecidableEq V] [DecidableEq Token]
    (retain : List A → List (K × V) → Token) (returnCopy : Bool)
    (module fname : String) (f : List A → List (K × V) → Except E Val)
    (st : CacheState (CallSignature A K V) Token Val)
    (args : List A) (kwargs : List (K × V)) :
    wrapper retain returnCopy none module fname f st args kwargs =
      memStep returnCopy (f args kwargs) st (retain args kwargs)
        (buildSignature module fname args kwargs) := rfl

/-- C1: Hit consistency.  With no disk tier configured
(`diskcache_dir = None`), for a deterministic wrapped function `f` and a
signature not yet cached, two calls with identical positional and
keyword arguments under the same freshness function both return `f`'s
result, the first call invokes the wrapped function, and the second is
served from the memory tier without invoking it. -/
theorem memory_hit_consistency
    {A K V Token Val E : Type}
    [DecidableEq A] [DecidableEq K] [DecidableEq V] [DecidableEq Token]
    (retain : List A → List (K × V) → Token) (returnCopy : Bool)
    (module fname : String)
    (f : List A → List (K × V) → Except E Val)
    (st : CacheState (CallSignature A K V) Token Val)
    (args : List A) (kwargs : List (K × V)) (v : Val)
    (habs : st.valueMap (buildSignature module fname args kwargs) = none)
    (hf : f args kwargs = .ok v) :
    (wrapper retain returnCopy none module fname f st args kwargs).ret = .ok v ∧
    (wrapper retain returnCopy none module fname f st args kwargs).invoked = true ∧
    (wrapper retain returnCopy none module fname f
      (wrapper retain returnCopy none module fname f st args kwargs).state
      args kwargs).ret = .ok v ∧
    (wrapper retain returnCopy none module fname f
      (wrapper retain returnCopy none module fname f st args kwargs).state
      args kwargs).invoked = false := by
  have h1 : wrapper retain returnCopy none module fname f st args kwargs =
      ⟨.ok v,
       ⟨mapUpd st.hashMap (buildSignature module fname args kwargs)
          (retain args kwargs),
        mapUpd st.valueMap (buildSignature module fname args kwargs) v⟩,
       true⟩ := by
    simp [wrapper, truthyDir, memStep, habs, hf]
  rw [h1]
  simp [wrapper, truthyDir, memStep, mapUpd, pyShallowCopy]

/-- Witness for C1 at a concrete instantiation. -/
theorem memory_hit_consistency_witness :
    ((emptyState : CacheState (CallSignature Nat Nat Nat) Nat Nat).valueMap
        (buildSignature "m" "g" [3] ([] : List (Nat × Nat))) = none) ∧
    (exFun7 [3] [] = .ok 7) ∧
    ((wrapper exRetain0 true none "m" "g" exFun7 emptyState [3] []).ret =
        .ok 7 ∧
     (wrapper exRetain0 true none "m" "g" exFun7
        emptyState [3] []).invoked = true ∧
     (wrapper exRetain0 true none "m" "g" exFun7
        (wrapper exRetain0 true none "m" "g" exFun7
          emptyState [3] []).state [3] []).ret = .ok 7 ∧
     (wrapper exRetain0 true none "m" "g" exFun7
        (wrapper exRetain0 true none "m" "g" exFun7
          emptyState [3] []).state [3] []).invoked = false) :=
  ⟨rfl, rfl,
   memory_hit_consistency exRetain0 true "m" "g" exFun7
     emptyState [3] [] 7 rfl rfl⟩

/-- C2: Invalidation and single-slot replacement.  Two consecutive calls
with the same arguments: the first caches its result under the token
computed by `retain1`; on the second the freshness function (`retain2`,
the external world having possibly changed) yields a different token, so
the wrapped function is invoked again, its new result is returned, and
the memory-tier entry is overwritten with the new token and value — no
history of the prior token or value remains for that signature.  Stated
with no disk tier configured, the only configuration in which a call can
complete and cache an entry (see `disk_calls_always_raise`). -/
theorem invalidation_replaces_entry
    {A K V Token Val E : Type}
    [DecidableEq A] [DecidableEq K] [DecidableEq V] [DecidableEq Token]
    (retain1 retain2 : List A → List (K × V) → Token) (returnCopy : Bool)
    (module fname : String)
    (f1 f2 : List A → List (K × V) → Except E Val)
    (st : CacheState (CallSignature A K V) Token Val)
    (args : List A) (kwargs : List (K × V)) (v1 v2 : Val)
    (habs : st.valueMap (buildSignature module fname args kwargs) = none)
    (hf1 : f1 args kwargs = .ok v1)
    (hf2 : f2 args kwargs = .ok v2)
    (hne : retain2 args kwargs ≠ retain1 args kwargs) :
    (wrapper retain2 returnCopy none module fname f2
      (wrapper retain1 returnCopy none module fname f1 st args kwargs).state
      args kwargs).invoked = true ∧
    (wrapper retain2 returnCopy none module fname f2
      (wrapper retain1 returnCopy none module fname f1 st args kwargs).state
      args kwargs).ret = .ok v2 ∧
    (wrapper retain2 returnCopy none module fname f2
      (wrapper retain1 returnCopy none module fname f1 st args kwargs).state
      args kwargs).state.hashMap (buildSignature module fname args kwargs) =
      some (retain2 args kwargs) ∧
    (wrapper retain2 returnCopy none module fname f2
      (wrapper retain1 returnCopy none module fname f1 st args kwargs).state
      args kwargs).state.valueMap (buildSignature module fname args kwargs) =
      some v2 := by
  have h1 : wrapper retain1 returnCopy none module fname f1 st args kwargs =
      ⟨.ok v1,
       ⟨mapUpd st.hashMap (buildSignature module fname args kwargs)
          (retain1 args kwargs),
        mapUpd st.valueMap (buildSignature module fname args kwargs) v1⟩,
       true⟩ := by
    simp [wrapper, truthyDir, memStep, habs, hf1]
  rw [h1]
  simp [wrapper, truthyDir, memStep, mapUpd, hf2, Ne.symm hne]

/-- Witness for C2 at a concrete instantiation. -/
theorem invalidation_replaces_entry_witness :
    ((emptyState : CacheState (CallSignature Nat Nat Nat) Nat Nat).valueMap
        (buildSignature "m" "g" [3] ([] : List (Nat × Nat))) = none) ∧
    (exFun7 [3] [] = .ok 7) ∧ (exFun9 [3] [] = .ok 9) ∧
    (exRetain1 [3] [] ≠ exRetain0 [3] []) ∧
    ((wrapper exRetain1 true none "m" "g" exFun9
        (wrapper exRetain0 true none "m" "g" exFun7
          emptyState [3] []).state [3] []).invoked = true ∧
     (wrapper exRetain1 true none "m" "g" exFun9
        (wrapper exRetain0 true none "m" "g" exFun7
          emptyState [3] []).state [3] []).ret = .ok 9 ∧
     (wrapper exRetain1 true none "m" "g" exFun9
        (wrapper exRetain0 true none "m" "g" exFun7
          emptyState [3] []).state [3] []).state.hashMap
        (buildSignature "m" "g" [3] []) = some (exRetain1 [3] []) ∧
     (wrapper exRetain1 true none "m" "g" exFun9
        (wrapper exRetain0 true none "m" "g" exFun7
          emptyState [3] []).state [3] []).state.valueMap
        (buildSignature "m" "g" [3] []) = some 9) :=
  ⟨rfl, rfl, rfl, by decide,
   invalidation_replaces_entry exRetain0 exRetain1 true "m" "g"
     exFun7 exFun9 emptyState [3] [] 7 9 rfl rfl rfl (by decide)⟩

/-- C8: Exception transparency and atomicity.  With no disk tier
configured, any call in which the wrapped function is invoked and raises
propagates that same exception to the caller, and the memory tier is
left exactly as it was: no entry is stored or replaced for any
signature. -/
theorem error_transparency
    {A K V Token Val E : Type}
    [DecidableEq A] [DecidableEq K] [DecidableEq V] [DecidableEq Token]
    (retain : List A → List (K × V) → Token) (returnCopy : Bool)
    (module fname : String)
    (f : List A → List (K × V) → Except E Val)
    (st : CacheState (CallSignature A K V) Token Val)
    (args : List A) (kwargs : List (K × V)) (e : E)
    (hf : f args kwargs = .error e)
    (hinv : (wrapper retain returnCopy none module fname f st args
        kwargs).invoked = true) :
    (wrapper retain returnCopy none module fname f st args kwargs).ret =
      .error (.userErr e) ∧
    (wrapper retain returnCopy none module fname f st args kwargs).state =
      st := by
  rw [wrapper_none_eq] at hinv ⊢
  rcases hval : st.valueMap (buildSignature module fname args kwargs) with
    _ | v
  · simp [memStep, hval, hf]
  · rcases hhash : st.hashMap (buildSignature module fname args kwargs) with
      _ | h
    · simp [memStep, hval, hhash] at hinv
    · by_cases htok : h = retain args kwargs
      · simp [memStep, hval, hhash, htok] at hinv
      · simp [memStep, hval, hhash, htok, hf]

/-- Witness for C8 at a concrete instantiation. -/
theorem error_transparency_witness :
    (exFunErr [3] [] = .error ()) ∧
    ((wrapper exRetain0 true none "m" "g" exFunErr
        (emptyState : CacheState (CallSignature Nat Nat Nat) Nat Nat)
        [3] []).invoked = true) ∧
    ((wrapper exRetain0 true none "m" "g" exFunErr emptyState [3] []).ret =
        .error (.userErr ()) ∧
     (wrapper exRetain0 true none "m" "g" exFunErr emptyState [3]
        []).state = emptyState) :=
  ⟨rfl, rfl,
   error_transparency exRetain0 true "m" "g" exFunErr
     emptyState [3] [] () rfl rfl⟩

/-- When `diskcache_dir` is truthy, every call through the wrapper
raises: `TypeError` at line 56 or 77 through the mis-called disk
helpers, or earlier errors of the memory step.  In particular no call
returns a value. -/
theorem disk_truthy_ret_error
    {A K V Token Val E : Type}
    [DecidableEq A] [DecidableEq K] [DecidableEq V] [DecidableEq Token]
    (retain : List A → List (K × V) → Token) (returnCopy : Bool)
    (disk : Option String) (module fname : String)
    (f : List A → List (K × V) → Except E Val)
    (st : CacheState (CallSignature A K V) Token Val)
    (args : List A) (kwargs : List (K × V))
    (hd : truthyDir disk = true) :
    ∃ e, (wrapper retain returnCopy disk module fname f st args
      kwargs).ret = .error e := by
  unfold wrapper
  simp only [hd, if_true]
  rcases st.valueMap (buildSignature module fname args kwargs) with _ | v0
  · exact ⟨.typeError, rfl⟩
  · rcases hret : (memStep returnCopy (f args kwargs) st (retain args kwargs)
        (buildSignature module fname args kwargs)).ret with e | v1
    · exact ⟨e, by simp [hret]⟩
    · exact ⟨.typeError, by simp [hret]⟩

/-- C10: Memory-tier pairing invariant.  If the two dictionaries of
lines 47-48 hold entries for the same signatures (true initially: both
start empty) and a call returns normally, then afterwards they still
hold entries for the same signatures, and the call's own signature is
present in both. -/
theorem memory_maps_paired
    {A K V Token Val E : Type}
    [DecidableEq A] [DecidableEq K] [DecidableEq V] [DecidableEq Token]
    (retain : List A → List (K × V) → Token) (returnCopy : Bool)
    (disk : Option String) (module fname : String)
    (f : List A → List (K × V) → Except E Val)
    (st : CacheState (CallSignature A K V) Token Val)
    (args : List A) (kwargs : List (K × V)) (v : Val)
    (hdom : domsAgree st)
    (hok : (wrapper retain returnCopy disk module fname f st args
      kwargs).ret = .ok v) :
    domsAgree (wrapper retain returnCopy disk module fname f st args
      kwargs).state ∧
    ((wrapper retain returnCopy disk module fname f st args
      kwargs).state.hashMap
        (buildSignature module fname args kwargs)).isSome = true ∧
    ((wrapper retain returnCopy disk module fname f st args
      kwargs).state.valueMap
        (buildSignature module fname args kwargs)).isSome = true := by
  have hd : truthyDir disk = false := by
    by_cases hd : truthyDir disk = true
    · obtain ⟨e, he⟩ := disk_truthy_ret_error retain returnCopy disk module
        fname f st args kwargs hd
      rw [he] at hok
      exact absurd hok (by simp)
    · exact eq_false_of_ne_true hd
  unfold wrapper at hok ⊢
  simp only [hd, Bool.false_eq_true, if_false] at hok ⊢
  rcases hval : st.valueMap (buildSignature module fname args kwargs) with
    _ | v0
  · rcases hf : f args kwargs with e | r
    · simp [memStep, hval, hf] at hok
    · refine ⟨fun s => ?_, ?_, ?_⟩ <;>
        simp [memStep, hval, hf, mapUpd] <;>
        by_cases hs : s = buildSignature module fname args kwargs <;>
        simp [hs, hdom s]
  · rcases hhash : st.hashMap (buildSignature module fname args kwargs) with
      _ | h
    · simp [memStep, hval, hhash] at hok
    · by_cases htok : h = retain args kwargs
      · exact ⟨by simpa [memStep, hval, hhash, htok] using hdom,
          by simp [memStep, hval, hhash, htok],
          by simp [memStep, hval, hhash, htok]⟩
      · rcases hf : f args kwargs with e | r
        · simp [memStep, hval, hhash, htok, hf] at hok
        · refine ⟨fun s => ?_, ?_, ?_⟩ <;>
            simp [memStep, hval, hhash, htok, hf, mapUpd] <;>
            by_cases hs : s = buildSignature module fname args kwargs <;>
            simp [hs, hdom s]

/-- Witness for C10 at a concrete instantiation. -/
theorem memory_maps_paired_witness :
    domsAgree (emptyState :
      CacheState (CallSignature Nat Nat Nat) Nat Nat) ∧
    ((wrapper exRetain0 true none "m" "g" exFun7 emptyState [3] []).ret =
      .ok 7) ∧
    (domsAgree (wrapper exRetain0 true none "m" "g" exFun7 emptyState
        [3] []).state ∧
     ((wrapper exRetain0 true none "m" "g" exFun7 emptyState [3]
        []).state.hashMap (buildSignature "m" "g" [3] [])).isSome = true ∧
     ((wrapper exRetain0 true none "m" "g" exFun7 emptyState [3]
        []).state.valueMap (buildSignature "m" "g" [3] [])).isSome =
        true) :=
  ⟨fun _ => rfl, rfl,
   memory_maps_paired exRetain0 true none "m" "g" exFun7 emptyState
     [3] [] 7 (fun _ => rfl) rfl⟩

/-- C4: With a disk cache directory configured (a truthy path), every
call in every call sequence from process start raises `TypeError`
(line 56's `_is_in_disk_cache(call_signature, 'result')` passes two
arguments into the three-parameter `_get_cache_path`), the wrapped
function is never invoked, and the memory tier stays empty — so no disk
artifact is ever read or written by this code. -/
theorem disk_calls_always_raise
    {A K V Token Val E : Type}
    [DecidableEq A] [DecidableEq K] [DecidableEq V] [DecidableEq Token]
    (retain : List A → List (K × V) → Token) (returnCopy : Bool)
    (dir : String) (module fname : String)
    (f : List A → List (K × V) → Except E Val)
    (calls : List (List A × List (K × V)))
    (hdir : dir ≠ "") :
    ∀ r ∈ runCalls retain returnCopy (some dir) module fname f emptyState
        calls,
      r.ret = .error .typeError ∧ r.invoked = false ∧
        r.state = emptyState := by
  have hd : truthyDir (some dir) = true := by simp [truthyDir, hdir]
  induction calls with
  | nil => intro r hr; simp [runCalls] at hr
  | cons c cs ih =>
      intro r hr
      have hw : wrapper retain returnCopy (some dir) module fname f
          emptyState c.1 c.2 =
          ⟨.error .typeError, emptyState, false⟩ := by
        unfold wrapper
        simp [hd, emptyState]
      simp only [runCalls, hw] at hr
      rcases List.mem_cons.mp hr with h | h
      · subst h; exact ⟨rfl, rfl, rfl⟩
      · exact ih r h

/-- Witness for C4 at a concrete instantiation. -/
theorem disk_calls_always_raise_witness :
    (("d" : String) ≠ "") ∧
    ((wrapper exRetain0 true (some "d") "m" "g" exFun7 emptyState [3]
        []).ret = .error .typeError ∧
     (wrapper exRetain0 true (some "d") "m" "g" exFun7 emptyState [3]
        []).invoked = false ∧
     (wrapper exRetain0 true (some "d") "m" "g" exFun7 emptyState [3]
        []).state = emptyState) :=
  ⟨by decide,
   disk_calls_always_raise exRetain0 true "d" "m" "g" exFun7
     [([3], [])] (by decide)
     (wrapper exRetain0 true (some "d") "m" "g" exFun7 emptyState [3] [])
     (by simp [runCalls])⟩

/-- C3 evidence: Disk warm-start is impossible.  In a fresh process
(empty memory tier) with a truthy disk directory, the very first call —
the one the spec says should load the disk record, validate its stored
token against the freshly computed one, and hit or recompute — instead
raises `TypeError` without invoking the wrapped function.  (Had the
helper arities been repaired, line 58 `hash_result =
_get_from_disk_cache(...)` would additionally overwrite the freshly
computed token with the stored one before the line-68 comparison, so a
loaded entry would always compare equal to itself and hit even when
stale.) -/
theorem disk_warmstart_raises
    {A K V Token Val E : Type}
    [DecidableEq A] [DecidableEq K] [DecidableEq V] [DecidableEq Token]
    (retain : List A → List (K × V) → Token) (returnCopy : Bool)
    (dir : String) (module fname : String)
    (f : List A → List (K × V) → Except E Val)
    (args : List A) (kwargs : List (K × V))
    (hdir : dir ≠ "") :
    (wrapper retain returnCopy (some dir) module fname f emptyState args
      kwargs).ret = .error .typeError ∧
    (wrapper retain returnCopy (some dir) module fname f emptyState args
      kwargs).invoked = false := by
  have hd : truthyDir (some dir) = true := by simp [truthyDir, hdir]
  unfold wrapper
  simp [hd, emptyState]

/-- Witness for the C3 evidence theorem. -/
theorem disk_warmstart_raises_witness :
    (("d" : String) ≠ "") ∧
    ((wrapper exRetain0 true (some "d") "m" "g" exFun7 emptyState [3]
        []).ret = .error .typeError ∧
     (wrapper exRetain0 true (some "d") "m" "g" exFun7 emptyState [3]
        []).invoked = false) :=
  ⟨by decide,
   disk_warmstart_raises exRetain0 true "d" "m" "g" exFun7 [3] []
     (by decide)⟩

/-- C5 evidence: Corruption is not tolerated.  In the scenario of the
claim — disk tier configured, signature absent from the memory tier, the
disk record partial or corrupt — the call raises `TypeError` out of the
wrapper (line 56, before any disk artifact is even examined), the
wrapped function is not recomputed, and the memory tier is unchanged;
the error is surfaced to the caller rather than treated as a miss.
(Even with the helper arities repaired, line 57's `try` guards only
`EOFError`: a missing token artifact would raise `FileNotFoundError` and
undeserializable bytes `pickle.UnpicklingError`, neither of which is
caught.) -/
theorem disk_corruption_raises
    {A K V Token Val E : Type}
    [DecidableEq A] [DecidableEq K] [DecidableEq V] [DecidableEq Token]
    (retain : List A → List (K × V) → Token) (returnCopy : Bool)
    (disk : Option String) (module fname : String)
    (f : List A → List (K × V) → Except E Val)
    (st : CacheState (CallSignature A K V) Token Val)
    (args : List A) (kwargs : List (K × V))
    (hd : truthyDir disk = true)
    (habs : st.valueMap (buildSignature module fname args kwargs) = none) :
    (wrapper retain returnCopy disk module fname f st args kwargs).ret =
      .error .typeError ∧
    (wrapper retain returnCopy disk module fname f st args
      kwargs).invoked = false ∧
    (wrapper retain returnCopy disk module fname f st args kwargs).state =
      st := by
  unfold wrapper
  simp [hd, habs]

/-- Witness for the C5 evidence theorem. -/
theorem disk_corruption_raises_witness :
    (truthyDir (some "d") = true) ∧
    ((emptyState :
        CacheState (CallSignature Nat Nat Nat) Nat Nat).valueMap
      (buildSignature "m" "g" [3] []) = none) ∧
    ((wrapper exRetain0 true (some "d") "m" "g" exFun7 emptyState [3]
        []).ret = .error .typeError ∧
     (wrapper exRetain0 true (some "d") "m" "g" exFun7 emptyState [3]
        []).invoked = false ∧
     (wrapper exRetain0 true (some "d") "m" "g" exFun7 emptyState [3]
        []).state = emptyState) :=
  ⟨by decide, rfl,
   disk_corruption_raises exRetain0 true (some "d") "m" "g" exFun7
     emptyState [3] [] (by decide) rfl⟩

/-- Helper for C9: with the default constant freshness function, a total
wrapped function and no disk tier, if every cached signature's stored
token is `0` then a call sequence invokes the wrapped function for a
given signature at most once — and never, if that signature is already
cached. -/
theorem invocationCount_default_le
    {A K V Val : Type} [DecidableEq A] [DecidableEq K] [DecidableEq V]
    (returnCopy : Bool) (module fname : String)
    (g : List A → List (K × V) → Val)
    (calls : List (List A × List (K × V))) :
    ∀ (st : CacheState (CallSignature A K V) Nat Val)
      (s : CallSignature A K V),
      (∀ sig, (st.valueMap sig).isSome = true → st.hashMap sig = some 0) →
      invocationCount defaultRetainHashFn returnCopy none module fname
        (fun a k => (Except.ok (g a k) : Except Empty Val)) st calls s ≤
        (if (st.valueMap s).isSome = true then 0 else 1) := by
  induction calls with
  | nil =>
      intro st s hP
      simp [invocationCount]
  | cons c cs ih =>
      intro st s hP
      rcases hval : st.valueMap (buildSignature module fname c.1 c.2) with
        _ | v0
      · have hw : wrapper defaultRetainHashFn returnCopy none module fname
            (fun a k => (Except.ok (g a k) : Except Empty Val)) st c.1
            c.2 =
            ⟨.ok (g c.1 c.2),
             ⟨mapUpd st.hashMap (buildSignature module fname c.1 c.2) 0,
              mapUpd st.valueMap (buildSignature module fname c.1 c.2)
                (g c.1 c.2)⟩,
             true⟩ := by
          rw [wrapper_none_eq]
          simp [memStep, hval, defaultRetainHashFn]
        have hP2 : ∀ sig,
            ((mapUpd st.valueMap (buildSignature module fname c.1 c.2)
              (g c.1 c.2)) sig).isSome = true →
            (mapUpd st.hashMap (buildSignature module fname c.1 c.2) 0)
              sig = some 0 := by
          intro sig hsig
          by_cases hs : sig = buildSignature module fname c.1 c.2
          · simp [mapUpd, hs]
          · simp [mapUpd, hs] at hsig ⊢
            exact hP sig hsig
        have htail := ih ⟨mapUpd st.hashMap
            (buildSignature module fname c.1 c.2) 0,
          mapUpd st.valueMap (buildSignature module fname c.1 c.2)
            (g c.1 c.2)⟩ s hP2
        simp only [invocationCount, hw]
        by_cases hs : buildSignature module fname c.1 c.2 = s
        · subst hs
          simp only [mapUpd, if_pos rfl, Option.isSome_some, if_true]
            at htail
          simp [hval]
          omega
        · have hs2 : ¬s = buildSignature module fname c.1 c.2 :=
            fun h => hs h.symm
          simp only [mapUpd, hs2, if_false] at htail
          simpa [hs] using htail
      · have hhash : st.hashMap (buildSignature module fname c.1 c.2) =
            some 0 := hP _ (by rw [hval]; rfl)
        have hw : wrapper defaultRetainHashFn returnCopy none module fname
            (fun a k => (Except.ok (g a k) : Except Empty Val)) st c.1
            c.2 =
            ⟨.ok (if returnCopy then pyShallowCopy v0 else v0), st,
              false⟩ := by
          rw [wrapper_none_eq]
          simp [memStep, hval, hhash, defaultRetainHashFn]
        simp only [invocationCount, hw]
        simpa using ih st s hP

/-- C9: Default freshness behavior.  The default freshness function
(`lambda *args, **kwargs: 0`, line 39) returns the same constant for
every argument list, so every cached entry stays valid forever: over any
sequence of calls from process start (no disk tier, wrapped function
total), each distinct signature invokes the wrapped function at most
once — plain memoization with no invalidation. -/
theorem default_is_plain_memoization
    {A K V Val : Type} [DecidableEq A] [DecidableEq K] [DecidableEq V]
    (returnCopy : Bool) (module fname : String)
    (g : List A → List (K × V) → Val)
    (calls : List (List A × List (K × V))) (s : CallSignature A K V) :
    (∀ (a : List A) (k : List (K × V)),
      defaultRetainHashFn (V := V) a k = 0) ∧
    invocationCount defaultRetainHashFn returnCopy none module fname
      (fun a k => (Except.ok (g a k) : Except Empty Val)) emptyState
      calls s ≤ 1 := by
  refine ⟨fun _ _ => rfl, ?_⟩
  have h := invocationCount_default_le returnCopy module fname g calls
    emptyState s (fun sig hsig => by simp [emptyState] at hsig)
  simpa [emptyState] using h

/-- C6 counterexample: with `return_copy=True`, mutating the result of
the first, computing call does change the value a subsequent cache hit
returns.  The first call returns the stored instance itself (lines
73-75 and 81 store and return the same object, taking no copy), so the
caller's in-place write `res[0] = 99` reaches the cached entry: the
second call is a hit (wrapped function not invoked) yet it returns
`[99]` instead of the originally returned `[1]`. -/
theorem mutating_first_result_changes_next_hit :
    exHeapCall1.map (fun p => p.2.2) = some true ∧
    exHeapCall1.map (fun p => deepRead p.1.heap 2 p.2.1) =
      some (.list [.int 1]) ∧
    exHeapCall2.map (fun p => p.2.2) = some false ∧
    exHeapCall2.map (fun p => deepRead p.1.heap 2 p.2.1) =
      some (.list [.int 99]) :=
  ⟨rfl, rfl, rfl, rfl⟩

/-- C6 amended: copy isolation holds only for top-level mutation of a
*hit*-returned result.  On a cache hit with copy-on-read enabled the
wrapper returns `copy.copy` of the stored object: a freshly allocated
cell distinct from the stored address, so writing an element of the
returned object never changes the stored object's contents.  (The first,
computing call returns the stored instance itself, and nested references
inside a shallow copy remain shared — see the counterexample.) -/
theorem hit_copy_top_level_isolated
    {A K V Token : Type}
    [DecidableEq A] [DecidableEq K] [DecidableEq V] [DecidableEq Token]
    (retain : List A → List (K × V) → Token)
    (module fname : String)
    (f : Heap → List A → List (K × V) → Heap × PyVal)
    (st : HeapState (CallSignature A K V) Token)
    (args : List A) (kwargs : List (K × V)) (a : Nat)
    (hval : st.valueMap (buildSignature module fname args kwargs) =
      some (.ref a))
    (hhash : st.hashMap (buildSignature module fname args kwargs) =
      some (retain args kwargs))
    (ha : a < st.heap.length) :
    wrapperH retain true module fname f st args kwargs =
      some (⟨st.heap ++ [st.heap.getD a []], st.hashMap, st.valueMap⟩,
        .ref st.heap.length, false) ∧
    st.heap.length ≠ a ∧
    ∀ (i : Nat) (w : PyVal),
      (listSet (st.heap ++ [st.heap.getD a []]) st.heap.length i
        w).getD a [] = st.heap.getD a [] := by
  refine ⟨?_, (Nat.ne_of_lt ha).symm, ?_⟩
  · unfold wrapperH
    simp [hval, hhash, pyCopy, heapAlloc]
  · intro i w
    have hne : st.heap.length ≠ a := (Nat.ne_of_lt ha).symm
    have hlt : a < (st.heap ++ [st.heap.getD a []]).length := by
      simp
      omega
    simp only [listSet, List.getD_eq_getElem?_getD,
      List.getElem?_set_ne hne, List.getElem?_append_left ha]

/-- Witness for the C6 amended theorem. -/
theorem hit_copy_top_level_isolated_witness :
    ((⟨[[.int 5]],
        mapUpd (fun _ => none) (buildSignature "m" "g" [] []) 0,
        mapUpd (fun _ => none) (buildSignature "m" "g" [] [])
          (.ref 0)⟩ :
      HeapState (CallSignature Nat Nat Nat) Nat).valueMap
        (buildSignature "m" "g" [] []) = some (.ref 0)) ∧
    ((⟨[[.int 5]],
        mapUpd (fun _ => none) (buildSignature "m" "g" [] []) 0,
        mapUpd (fun _ => none) (buildSignature "m" "g" [] [])
          (.ref 0)⟩ :
      HeapState (CallSignature Nat Nat Nat) Nat).hashMap
        (buildSignature "m" "g" [] []) = some (exRetain0 [] [])) ∧
    (0 < ([[PyVal.int 5]] : Heap).length) ∧
    (wrapperH exRetain0 true "m" "g" exAllocList1
      (⟨[[.int 5]],
        mapUpd (fun _ => none) (buildSignature "m" "g" [] []) 0,
        mapUpd (fun _ => none) (buildSignature "m" "g" [] [])
          (.ref 0)⟩ :
        HeapState (CallSignature Nat Nat Nat) Nat) [] [] =
      some (⟨[[.int 5]] ++ [([[PyVal.int 5]] : Heap).getD 0 []],
        mapUpd (fun _ => none) (buildSignature "m" "g" [] []) 0,
        mapUpd (fun _ => none) (buildSignature "m" "g" [] [])
          (.ref 0)⟩,
        .ref ([[PyVal.int 5]] : Heap).length, false) ∧
     ([[PyVal.int 5]] : Heap).length ≠ 0 ∧
     ∀ (i : Nat) (w : PyVal),
       (listSet ([[.int 5]] ++ [([[PyVal.int 5]] : Heap).getD 0 []])
         ([[PyVal.int 5]] : Heap).length i w).getD 0 [] =
         ([[PyVal.int 5]] : Heap).getD 0 []) :=
  ⟨rfl, rfl, by decide,
   hit_copy_top_level_isolated exRetain0 "m" "g" exAllocList1
     ⟨[[.int 5]],
      mapUpd (fun _ => none) (buildSignature "m" "g" [] []) 0,
      mapUpd (fun _ => none) (buildSignature "m" "g" [] []) (.ref 0)⟩
     [] [] 0 rfl rfl (by decide)⟩

/-- C7 counterexample: two calls whose keyword-argument mappings are
equal as mappings (the item lists are permutations of one another) but
supplied in different orders derive *different* call signatures —
`tuple(kwargs.items())` on line 51 preserves the supply order — and
therefore do not share a cache entry: the second call invokes the
wrapped function again instead of hitting. -/
theorem kwargs_order_distinct_signatures :
    List.Perm [((1 : Nat), (10 : Nat)), (2, 20)] [(2, 20), (1, 10)] ∧
    buildSignature "m" "g" ([] : List Nat)
        [((1 : Nat), (10 : Nat)), (2, 20)] ≠
      buildSignature "m" "g" [] [(2, 20), (1, 10)] ∧
    (wrapper exRetain0 true none "m" "g" exFun7 emptyState ([] : List Nat)
      [(1, 10), (2, 20)]).invoked = true ∧
    (wrapper exRetain0 true none "m" "g" exFun7
      (wrapper exRetain0 true none "m" "g" exFun7 emptyState
        ([] : List Nat) [(1, 10), (2, 20)]).state
      [] [(2, 20), (1, 10)]).invoked = true := by
  refine ⟨by decide, by decide, rfl, rfl⟩

/-- C7 amended: the derived call signature is determined by — and only
by — the function's module, its name, the positional-argument sequence
and the keyword items *in the order they were supplied*: two calls share
a cache entry exactly when all four coincide, so the same keyword
mapping supplied in a different order occupies a separate entry. -/
theorem signature_eq_iff_components_eq {A K V : Type}
    (mod1 mod2 nm1 nm2 : String) (a1 a2 : List A)
    (k1 k2 : List (K × V)) :
    buildSignature mod1 nm1 a1 k1 = buildSignature mod2 nm2 a2 k2 ↔
      (mod1 = mod2 ∧ nm1 = nm2 ∧ a1 = a2 ∧ k1 = k2) := by
  simp [buildSignature, CallSignature.mk.injEq]

end Funcache
